import Mathlib

/-!
Shallow embedding of the Go web service in src/main.go.

The service exposes six HTTP routes over a `users` table. The database
driver, the JSON decoder, the form parser, the dotenv loader and the
template parser are external collaborators; each handler is embedded as a
pure function that receives the collaborator's result as an argument (the
result of `json.Decode`, of `godotenv.Load`, of `template.ParseFiles`, of
form parsing) and the database state, and returns the HTTP response, the
new database state and the trace of database operations it performed.
Faults of the driver (query, scan, exec, ping failures) are injected
through `Option String` fields of the database state.
-/

/-- Configuration record, mirroring `type Config struct` in main.go. -/
structure Config where
  DBUsername : String
  DBPassword : String
  DBHost : String
  DBPort : String
  DBName : String
deriving Repr, DecidableEq

/-- User record, mirroring `type User struct` in main.go
(`ID int`, `FirstName string`, `LastName string`). -/
structure User where
  ID : Int
  FirstName : String
  LastName : String
deriving Repr, DecidableEq

/-- State of the external MariaDB collaborator: the rows of the `users`
table, the auto-increment counter for `id`, and fault-injection fields
giving the error (if any) that the driver returns for each kind of call. -/
structure Db where
  rows : List User
  nextId : Int
  queryErr : Option String
  scanErr : Option String
  execErr : Option String
  pingErr : Option String
deriving Repr, DecidableEq

/-- A database operation performed by a handler, recorded in its trace. -/
inductive DbOp where
  | query (sql : String)
  | exec (sql : String) (args : List String)
  | ping
deriving Repr, DecidableEq

/-- The SQL text of the insert statement in `createUserHandler` and
`createHandler`. -/
def insertQuery : String := "INSERT INTO users (first_name, last_name) VALUES (?, ?)"

/-- The SQL text of the select statement in `getUsersHandler`. -/
def selectQuery : String := "SELECT id, first_name, last_name FROM users"

/-- `db.Exec(insertQuery, firstName, lastName)`: fails with the injected
exec error if present, else appends a row whose `id` is storage-assigned
from the auto-increment counter. -/
def Db.execInsert (db : Db) (firstName lastName : String) : Except String Db :=
  match db.execErr with
  | some e => Except.error e
  | none =>
      Except.ok { db with
        rows := db.rows ++ [⟨db.nextId, firstName, lastName⟩],
        nextId := db.nextId + 1 }

/-- The observable HTTP response a handler writes: status code, body text,
and the `Content-Type` and `Location` headers when the handler sets them. -/
structure HttpResponse where
  status : Nat
  body : String
  contentType : Option String := none
  location : Option String := none
deriving Repr, DecidableEq

/-- `http.Error(w, msg, code)`: plain-text response with status `code`
whose body is `msg` followed by a newline. -/
def httpError (msg : String) (code : Nat) : HttpResponse :=
  { status := code,
    body := msg ++ "\n",
    contentType := some "text/plain; charset=utf-8",
    location := none }

/-- One hexadecimal digit, lower case, as used by Go's JSON escaper. -/
def hexDigit (n : Nat) : Char :=
  if n < 10 then Char.ofNat (48 + n) else Char.ofNat (87 + n)

/-- Two hexadecimal digits for a byte value. -/
def hexByte (n : Nat) : String :=
  String.singleton (hexDigit (n / 16)) ++ String.singleton (hexDigit (n % 16))

/-- Escaping of one character inside a JSON string, following Go's
`encoding/json` default encoder (HTML-safe escaping of `<`, `>`, `&`). -/
def jsonEscapeChar (c : Char) : String :=
  if c = '"' then "\\\""
  else if c = '\\' then "\\\\"
  else if c = '\n' then "\\n"
  else if c = '\r' then "\\r"
  else if c = '\t' then "\\t"
  else if c = '<' then "\\u003c"
  else if c = '>' then "\\u003e"
  else if c = '&' then "\\u0026"
  else if c.toNat < 32 then "\\u00" ++ hexByte c.toNat
  else String.singleton c

/-- A Go JSON string literal for `s`. -/
def jsonQuote (s : String) : String :=
  "\"" ++ String.join (s.toList.map jsonEscapeChar) ++ "\""

/-- JSON object for one `User`, with the struct tags `id`, `first_name`,
`last_name` of main.go. -/
def encodeUser (u : User) : String :=
  "\x7b\"id\":" ++ toString u.ID
    ++ ",\"first_name\":" ++ jsonQuote u.FirstName
    ++ ",\"last_name\":" ++ jsonQuote u.LastName ++ "\x7d"

/-- `json.NewEncoder(w).Encode(users)` where `users` is the Go slice built
in `getUsersHandler` by `append` starting from the nil slice
`var users []User`: Go marshals the nil slice (no rows) as the JSON
literal `null`, and a non-nil slice as a JSON array; `Encoder.Encode`
appends a newline. -/
def goEncodeUsers (users : List User) : String :=
  match users with
  | [] => "null\n"
  | _ => "[" ++ String.intercalate "," (users.map encodeUser) ++ "]\n"

/-- The scan loop of `getUsersHandler`: each `rows.Scan` either fails with
the injected scan error or yields the row. -/
def scanRows (db : Db) : List User → Except String (List User)
  | [] => Except.ok []
  | r :: rest =>
      match db.scanErr with
      | some e => Except.error e
      | none => (scanRows db rest).map (fun us => r :: us)

/-- `createUserHandler` (POST /users): `decodeResult` is the outcome of
`json.NewDecoder(r.Body).Decode(&user)`. -/
def createUserHandler (db : Db) (decodeResult : Except String User) :
    HttpResponse × Db × List DbOp :=
  match decodeResult with
  | Except.error e => (httpError e 400, db, [])
  | Except.ok user =>
      match db.execInsert user.FirstName user.LastName with
      | Except.error e =>
          (httpError e 500, db,
           [DbOp.exec insertQuery [user.FirstName, user.LastName]])
      | Except.ok db2 =>
          ({ status := 201, body := "" }, db2,
           [DbOp.exec insertQuery [user.FirstName, user.LastName]])

/-- `getUsersHandler` (GET /users): full scan of the users table; 500 on
query or scan error; otherwise 200 with the Go JSON encoding of the slice
accumulated by the scan loop. -/
def getUsersHandler (db : Db) : HttpResponse × Db × List DbOp :=
  match db.queryErr with
  | some e => (httpError e 500, db, [DbOp.query selectQuery])
  | none =>
      match scanRows db db.rows with
      | Except.error e => (httpError e 500, db, [DbOp.query selectQuery])
      | Except.ok users =>
          ({ status := 200,
             body := goEncodeUsers users,
             contentType := some "application/json" }, db,
           [DbOp.query selectQuery])

/-- `showFormHandler` (GET /): `parseFilesResult` is the per-request
outcome of `template.ParseFiles("form.html")` (the template modelled as
its rendered text, since it is executed with nil data). `template.Must`
panics on a parse error, embedded as `Except.error`; on success the
template is executed into the response body with implicit status 200. -/
def showFormHandler (parseFilesResult : Except String String) :
    Except String HttpResponse :=
  match parseFilesResult with
  | Except.error e => Except.error e
  | Except.ok tmpl => Except.ok { status := 200, body := tmpl }

/-- `r.FormValue(key)`: first value for `key` in the parsed form, or the
empty string when the key is absent. -/
def formValue (form : List (String × String)) (key : String) : String :=
  match form.find? (fun kv => kv.1 = key) with
  | some kv => kv.2
  | none => ""

/-- `createHandler` (POST /create): `parseFormErr` is the return value of
`r.ParseForm()`, which the code discards; `form` is whatever key/value
pairs were parsed out of the body. Inserts the two form fields; 500 on
exec error; else `http.Redirect(w, r, "/", http.StatusSeeOther)` (for a
POST request the redirect writes no body). -/
def createHandler (db : Db) (parseFormErr : Option String)
    (form : List (String × String)) : HttpResponse × Db × List DbOp :=
  let _ := parseFormErr
  let firstName := formValue form "first_name"
  let lastName := formValue form "last_name"
  match db.execInsert firstName lastName with
  | Except.error e =>
      (httpError e 500, db, [DbOp.exec insertQuery [firstName, lastName]])
  | Except.ok db2 =>
      ({ status := 303, body := "", location := some "/" }, db2,
       [DbOp.exec insertQuery [firstName, lastName]])

/-- `healthCheckHandler` (GET /health): unconditional 200 "OK" with an
empty database-operation trace (the handler closes over no database
handle). -/
def healthCheckHandler : HttpResponse × List DbOp :=
  ({ status := 200, body := "OK\n" }, [])

/-- `readinessCheckHandler` (GET /readiness): pings the handle; 503 on
ping error, 200 otherwise. -/
def readinessCheckHandler (db : Db) : HttpResponse × Db × List DbOp :=
  match db.pingErr with
  | some _ =>
      ({ status := 503, body := "Database is not available\n" }, db, [DbOp.ping])
  | none => ({ status := 200, body := "OK\n" }, db, [DbOp.ping])

/-- `loadConfig`: `dotenvLoadErr` is the result of `godotenv.Load(".env")`
(an error when the file is absent or unreadable); `getenv` is
`os.Getenv`. The fields are populated only when the load succeeded; the
function always returns a nil error. -/
def loadConfig (dotenvLoadErr : Option String) (getenv : String → String) :
    Config × Option String :=
  match dotenvLoadErr with
  | none =>
      ({ DBUsername := getenv "DB_USERNAME",
         DBPassword := getenv "DB_PASSWORD",
         DBHost := getenv "DB_HOST",
         DBPort := getenv "DB_PORT",
         DBName := getenv "DB_NAME" }, none)
  | some _ =>
      ({ DBUsername := "", DBPassword := "", DBHost := "",
         DBPort := "", DBName := "" }, none)

/-- The file-open call made by `setupFileLogging`:
`os.OpenFile("app.log", os.O_CREATE|os.O_WRONLY|os.O_APPEND, 0666)`. -/
structure OpenCall where
  path : String
  create : Bool
  writeOnly : Bool
  append : Bool
deriving Repr, DecidableEq

/-- The concrete open call of `setupFileLogging`. -/
def appLogOpenCall : OpenCall :=
  { path := "app.log", create := true, writeOnly := true, append := true }

/-- Outcome of the logging-setup phase of `main`. -/
inductive LogSetupOutcome where
  | toFile (call : OpenCall)
  | fatalExit (msg : String)
  | toStdout (warned : Bool)
deriving Repr, DecidableEq

/-- `setupFileLogging`: opens app.log (create, write-only, append);
`log.Fatal` on open failure, else redirects log output to the file. -/
def setupFileLogging (openResult : Except String Unit) : LogSetupOutcome :=
  match openResult with
  | Except.error e => LogSetupOutcome.fatalExit ("Error opening log file:" ++ e)
  | Except.ok _ => LogSetupOutcome.toFile appLogOpenCall

/-- The `switch loggingDestination` at the top of `main`: "file" runs
`setupFileLogging`; "stdout" redirects to stdout; any other value logs a
warning ("Invalid logging destination specified. Defaulting to stdout.")
and redirects to stdout — the `warned` flag records the warning. -/
def chooseLoggingDestination (dest : String) (openResult : Except String Unit) :
    LogSetupOutcome :=
  if dest = "file" then setupFileLogging openResult
  else if dest = "stdout" then LogSetupOutcome.toStdout false
  else LogSetupOutcome.toStdout true

/-- A database state with an empty users table and no injected faults. -/
def emptyDb : Db :=
  { rows := [], nextId := 1, queryErr := none, scanErr := none,
    execErr := none, pingErr := none }

/-- C1: claimed behavior — GET /users on an empty table with a successful
query responds 200 with an empty JSON array. The code instead encodes the
nil Go slice, so the body is the JSON literal null: this theorem evaluates
the handler at the failing input (empty table, no faults) and shows the
status is 200 but the body is "null", not an empty array. -/
theorem getUsers_empty_table_encodes_null :
    (getUsersHandler emptyDb).1.status = 200 ∧
    (getUsersHandler emptyDb).1.body = "null\n" ∧
    (getUsersHandler emptyDb).1.body ≠ "[]\n" ∧
    (getUsersHandler emptyDb).2.1 = emptyDb := by
  refine ⟨rfl, rfl, ?_, rfl⟩
  decide

/-- C2: POST /users with a body that fails JSON decoding responds 400
(body: the decode error text plus newline) and performs no database
operation, leaving the database state unchanged. -/
theorem createUser_bad_json_400_no_insert (db : Db) (e : String) :
    (createUserHandler db (Except.error e)).1 = httpError e 400 ∧
    (createUserHandler db (Except.error e)).1.status = 400 ∧
    (createUserHandler db (Except.error e)).2.1 = db ∧
    (createUserHandler db (Except.error e)).2.2 = [] :=
  ⟨rfl, rfl, rfl, rfl⟩

/-- C3: for a successfully decoded payload, the insert uses only the
payload's first_name and last_name — changing the payload's id changes
nothing about the handler's outcome; on insert success the response is
201 with an empty body and the new row carries the storage-assigned id;
on insert failure the response is 500 with the raw error text. -/
theorem createUser_ok_insert_ignores_id (db : Db) (u : User) :
    (∀ id2 : Int,
       createUserHandler db (Except.ok { u with ID := id2 }) =
         createUserHandler db (Except.ok u)) ∧
    (db.execErr = none →
       createUserHandler db (Except.ok u) =
         ({ status := 201, body := "" },
          { db with rows := db.rows ++ [⟨db.nextId, u.FirstName, u.LastName⟩],
                    nextId := db.nextId + 1 },
          [DbOp.exec insertQuery [u.FirstName, u.LastName]])) ∧
    (∀ e, db.execErr = some e →
       createUserHandler db (Except.ok u) =
         (httpError e 500, db,
          [DbOp.exec insertQuery [u.FirstName, u.LastName]])) := by
  refine ⟨?_, ?_, ?_⟩
  · intro id2
    cases h : db.execErr <;>
      simp [createUserHandler, Db.execInsert, h]
  · intro h
    simp [createUserHandler, Db.execInsert, h]
  · intro e he
    simp [createUserHandler, Db.execInsert, he]

/-- Witness for C3 at a concrete input: inserting the payload
(id 7, "Ada", "Lovelace") into the empty fault-free database yields 201
and a row with the storage-assigned id 1. -/
theorem createUser_ok_insert_ignores_id_witness :
    createUserHandler emptyDb (Except.ok ⟨7, "Ada", "Lovelace"⟩) =
      ({ status := 201, body := "" },
       { emptyDb with rows := [⟨1, "Ada", "Lovelace"⟩], nextId := 2 },
       [DbOp.exec insertQuery ["Ada", "Lovelace"]]) :=
  (createUser_ok_insert_ignores_id emptyDb ⟨7, "Ada", "Lovelace"⟩).2.1 rfl

/-- C4: GET /readiness always pings the handle and leaves the database
state unchanged; it responds 200 "OK" exactly when the ping succeeds and
503 "Database is not available" exactly when the ping fails, returning a
response (never terminating the process) in both cases. -/
theorem readiness_pings_and_reports (db : Db) :
    (readinessCheckHandler db).2.1 = db ∧
    (readinessCheckHandler db).2.2 = [DbOp.ping] ∧
    ((readinessCheckHandler db).1 = { status := 200, body := "OK\n" } ↔
       db.pingErr = none) ∧
    ((readinessCheckHandler db).1 =
        { status := 503, body := "Database is not available\n" } ↔
       db.pingErr ≠ none) := by
  cases h : db.pingErr <;>
    simp [readinessCheckHandler, h, HttpResponse.mk.injEq]

/-- C5: GET /health responds 200 with body "OK" and performs no database
operation; the handler closes over no database handle, so the response is
the same regardless of database state. -/
theorem health_always_ok :
    healthCheckHandler = ({ status := 200, body := "OK\n" }, ([] : List DbOp)) :=
  rfl

/-- C6: POST /create reads the first_name and last_name form fields (a
key absent from the parsed form yields the empty string), inserts exactly
those two values; on insert success it responds 303 with Location "/",
and on insert failure it responds 500 leaving the table unchanged. -/
theorem createForm_inserts_fields_and_redirects (db : Db)
    (parseErr : Option String) (form : List (String × String)) :
    (∀ k, (∀ kv ∈ form, kv.1 ≠ k) → formValue form k = "") ∧
    (db.execErr = none →
       createHandler db parseErr form =
         ({ status := 303, body := "", location := some "/" },
          { db with
              rows := db.rows ++
                [⟨db.nextId, formValue form "first_name",
                  formValue form "last_name"⟩],
              nextId := db.nextId + 1 },
          [DbOp.exec insertQuery
            [formValue form "first_name", formValue form "last_name"]])) ∧
    (∀ e, db.execErr = some e →
       (createHandler db parseErr form).1.status = 500 ∧
       (createHandler db parseErr form).2.1 = db) := by
  refine ⟨?_, ?_, ?_⟩
  · intro k hk
    simp only [formValue]
    rw [List.find?_eq_none.mpr]
    intro kv hkv
    simp [hk kv hkv]
  · intro h
    simp [createHandler, Db.execInsert, h]
  · intro e he
    simp [createHandler, Db.execInsert, he, httpError]

/-- Witness for C6 at a concrete input: a form carrying only first_name
"Ada" inserted into the empty fault-free database redirects 303 to "/"
and the missing last_name field was read as the empty string. -/
theorem createForm_inserts_fields_and_redirects_witness :
    createHandler emptyDb none [("first_name", "Ada")] =
      ({ status := 303, body := "", location := some "/" },
       { emptyDb with rows := [⟨1, "Ada", ""⟩], nextId := 2 },
       [DbOp.exec insertQuery ["Ada", ""]]) := by
  have h :=
    (createForm_inserts_fields_and_redirects emptyDb none
      [("first_name", "Ada")]).2.1 rfl
  simpa [formValue] using h

/-- C7: the config loader never returns an error; when the env-file load
failed (file absent) all five fields are the empty string, and when it
succeeded the five fields come from the DB_USERNAME, DB_PASSWORD,
DB_HOST, DB_PORT, DB_NAME environment variables. -/
theorem loadConfig_never_fails (err : Option String) (getenv : String → String) :
    (loadConfig err getenv).2 = none ∧
    (err ≠ none →
       (loadConfig err getenv).1 =
         { DBUsername := "", DBPassword := "", DBHost := "",
           DBPort := "", DBName := "" }) ∧
    (err = none →
       (loadConfig err getenv).1 =
         { DBUsername := getenv "DB_USERNAME",
           DBPassword := getenv "DB_PASSWORD",
           DBHost := getenv "DB_HOST",
           DBPort := getenv "DB_PORT",
           DBName := getenv "DB_NAME" }) := by
  refine ⟨?_, ?_, ?_⟩
  · cases err <;> rfl
  · intro h
    cases err with
    | none => exact absurd rfl h
    | some e => rfl
  · intro h
    subst h
    rfl

/-- Witness for C7 at a concrete input: with the env file absent
(load error) and every environment variable set to "x", the loader
returns no error and an all-empty config. -/
theorem loadConfig_never_fails_witness :
    (loadConfig (some "open .env: no such file or directory")
        (fun _ => "x")).2 = none ∧
    (loadConfig (some "open .env: no such file or directory")
        (fun _ => "x")).1 =
      { DBUsername := "", DBPassword := "", DBHost := "",
        DBPort := "", DBName := "" } :=
  ⟨(loadConfig_never_fails (some "open .env: no such file or directory")
      (fun _ => "x")).1,
   (loadConfig_never_fails (some "open .env: no such file or directory")
      (fun _ => "x")).2.1 (by simp)⟩

/-- C8: the logging destination switch: "file" opens app.log in
create/write-only/append mode and redirects log output to it, exiting
fatally when the open fails; "stdout" redirects to standard output with
no warning; every other value emits the warning and falls back to
standard output. -/
theorem logging_destination_selection (dest : String)
    (openResult : Except String Unit) :
    (dest = "file" → openResult = Except.ok () →
       chooseLoggingDestination dest openResult =
         LogSetupOutcome.toFile
           { path := "app.log", create := true, writeOnly := true,
             append := true }) ∧
    (∀ e, dest = "file" → openResult = Except.error e →
       chooseLoggingDestination dest openResult =
         LogSetupOutcome.fatalExit ("Error opening log file:" ++ e)) ∧
    (dest = "stdout" →
       chooseLoggingDestination dest openResult =
         LogSetupOutcome.toStdout false) ∧
    (dest ≠ "file" → dest ≠ "stdout" →
       chooseLoggingDestination dest openResult =
         LogSetupOutcome.toStdout true) := by
  refine ⟨?_, ?_, ?_, ?_⟩
  · intro hd ho
    subst hd; subst ho
    rfl
  · intro e hd ho
    subst hd; subst ho
    rfl
  · intro hd
    subst hd
    rfl
  · intro h1 h2
    simp [chooseLoggingDestination, h1, h2]

/-- Witness for C8 at concrete inputs: LOG_DESTINATION unset (empty
string) is neither "file" nor "stdout", so the setup warns and falls
back to standard output. -/
theorem logging_destination_selection_witness :
    chooseLoggingDestination "" (Except.ok ()) =
      LogSetupOutcome.toStdout true :=
  (logging_destination_selection "" (Except.ok ())).2.2.2
    (by decide) (by decide)

/-- C9: POST /create has no 4xx path: whatever the (discarded) form-parse
result and whatever form data was recovered, the handler responds either
303 or 500. -/
theorem createForm_no_client_error (db : Db) (parseErr : Option String)
    (form : List (String × String)) :
    (createHandler db parseErr form).1.status = 303 ∨
    (createHandler db parseErr form).1.status = 500 := by
  cases h : db.execErr <;>
    simp [createHandler, Db.execInsert, h, httpError]

/-- C10: GET / parses form.html per request via template.Must: whenever
the per-request parse result is an error the handler panics (no error
response is produced), and when it succeeds the handler responds 200
with the rendered template. -/
theorem showForm_panics_on_parse_failure (e tmpl : String) :
    showFormHandler (Except.error e) = Except.error e ∧
    showFormHandler (Except.ok tmpl) =
      Except.ok { status := 200, body := tmpl } :=
  ⟨rfl, rfl⟩
